import Mathlib

/-!
Shallow embedding of `nagios_exporter.py` (m-lab/prometheus-nagios-exporter).

Modelling conventions:
* Python strings are Lean `String`s; the byte stream of the livestatus socket
  is a `List Char`.
* Python `float` values are modelled as IEEE-754 binary64 doubles
  (`PyFloat`): `float(s)` is `pyFloat` (the Python 2 grammar, correctly
  rounded with ties to even, accepting `inf`/`nan`), multiplication is
  `pyFloatMul` (exact product re-rounded, overflow to infinity), and
  `str(f)` is `floatStr` (`%.12g` with CPython 2's add-dot-zero fixup),
  all computed exactly over the dyadic rational each double denotes.
* Python dicts are association lists with first-insertion order and
  last-write-wins update (`dictInsert`), which fixes one deterministic
  iteration order for the CPython hash order observed in the repository's
  unit tests.
* Python exceptions that the program raises but never catches (`ValueError`,
  `IndexError`, `TypeError`) are `Except String` errors; the program's own
  `NagiosError` family is the inductive `NagiosErr`.
-/

namespace NagiosExporter

/-- A Python dict of string keys, in iteration order. -/
abbrev Dict (α : Type) := List (String × α)

abbrev Labels := Dict String

/-- Insert with Python dict semantics: overwrite in place, else append. -/
def dictInsert (d : Dict α) (k : String) (v : α) : Dict α :=
  if d.any (fun p => p.1 == k) then
    d.map (fun p => if p.1 == k then (k, v) else p)
  else d ++ [(k, v)]

/-- `d.get(k)` for the association-list dict. -/
def dictGet? (d : Dict α) (k : String) : Option α :=
  (d.find? (fun p => p.1 == k)).map (fun p => p.2)

/-- `d.update(upd)`. -/
def dictUpdate (d upd : Dict α) : Dict α :=
  upd.foldl (fun acc p => dictInsert acc p.1 p.2) d

/-- Split a character list at every occurrence of `sep`
(Python `str.split(sep)` for a one-character separator): never empty. -/
def splitOnChar (sep : Char) : List Char → List (List Char)
  | [] => [[]]
  | c :: rest =>
    if c = sep then [] :: splitOnChar sep rest
    else
      match splitOnChar sep rest with
      | [] => [[c]]
      | h :: t => (c :: h) :: t

/-- Python `s.split(sep)` for a one-character separator. -/
def pySplit (s : String) (sep : Char) : List String :=
  (splitOnChar sep s.toList).map String.mk

/-- Helper for Python whitespace `split()`: accumulates the current token. -/
def wsSplitAux : List Char → List Char → List (List Char)
  | [], acc => if acc = [] then [] else [acc.reverse]
  | c :: rest, acc =>
    if c.isWhitespace then
      if acc = [] then wsSplitAux rest []
      else acc.reverse :: wsSplitAux rest []
    else wsSplitAux rest (c :: acc)

/-- Python `s.split()`: split on whitespace runs, dropping empty tokens. -/
def pySplitWs (s : String) : List String :=
  (wsSplitAux s.toList []).map String.mk

/-- `listStartsWith l p` is true when `p` is a prefix of `l`. -/
def listStartsWith : List Char → List Char → Bool
  | _, [] => true
  | [], _ :: _ => false
  | a :: as, b :: bs => a = b && listStartsWith as bs

/-- Python `needle in hay` substring containment. -/
def pyContains (needle hay : String) : Bool :=
  (List.range (hay.toList.length + 1)).any
    (fun i => listStartsWith (hay.toList.drop i) needle.toList)

/-- Python `'-'.replace` restricted to one-character patterns:
`name.replace('-', '_')`. -/
def dashToUnderscore (s : String) : String :=
  String.mk (s.toList.map (fun c => if c = '-' then '_' else c))

/-- Python `sep.join(lines)`. -/
def pyJoin (sep : String) : List String → String
  | [] => ""
  | x :: xs => xs.foldl (fun acc y => acc ++ sep ++ y) x

/-- Numeric value of a run of decimal digits. -/
def digitsVal (ds : List Char) : Nat :=
  ds.foldl (fun a c => a * 10 + (c.toNat - 48)) 0

/-- Python `s.strip()`: remove leading and trailing whitespace. -/
def pyStrip (s : String) : String :=
  String.mk (((s.toList.dropWhile Char.isWhitespace).reverse.dropWhile
    Char.isWhitespace).reverse)

/-- Python `int(s)`: optional surrounding whitespace, optional sign,
one or more digits. -/
def pyInt (s : String) : Option Int :=
  let t := pyStrip s
  let (neg, ds) :=
    match t.toList with
    | '-' :: r => (true, r)
    | '+' :: r => (false, r)
    | r => (false, r)
  if ds ≠ [] ∧ ds.all Char.isDigit then
    some ((if neg then -1 else 1) * (digitsVal ds : Int))
  else none

/-- A Python 2 float value: an IEEE-754 binary64 double.  A finite value
is `(-1)^neg * m * 2^e` with `0 ≤ m < 2^53` (the sign carries signed
zero); parsing and multiplication round to nearest, ties to even, and
overflow to the infinities. -/
inductive PyFloat where
  | finite (neg : Bool) (m : Nat) (e : Int)
  | inf (neg : Bool)
  | nan
  deriving DecidableEq, Repr

/-- Number of binary digits of `n` (fuel-based, `fuel = n` suffices). -/
def bitLenAux : Nat → Nat → Nat
  | 0, _ => 0
  | fuel + 1, n => if n = 0 then 0 else 1 + bitLenAux fuel (n / 2)

/-- Number of binary digits of `n`. -/
def bitLen (n : Nat) : Nat := bitLenAux n n

/-- Integer division rounding to nearest, ties to even. -/
def rhe (num den : Nat) : Nat :=
  let q := num / den
  let r := num % den
  if 2 * r > den then q + 1
  else if 2 * r < den then q
  else if q % 2 = 0 then q else q + 1

/-- Floor of `(a / b) / 2 ^ e`. -/
def floorShift (a b : Nat) (e : Int) : Nat :=
  if e ≥ 0 then a / (b * 2 ^ e.toNat) else (a * 2 ^ (-e).toNat) / b

/-- Adjust the candidate binary exponent until the mantissa
`floor((a/b) / 2^e)` lies in `[2^52, 2^53)` (a couple of steps suffice;
generous fuel). -/
def adjustE (a b : Nat) : Int → Nat → Int
  | e, 0 => e
  | e, fuel + 1 =>
    let n := floorShift a b e
    if n ≥ 2 ^ 53 then adjustE a b (e + 1) fuel
    else if n < 2 ^ 52 then adjustE a b (e - 1) fuel
    else e

/-- Round the positive rational `a / b` (with sign `neg`) to the nearest
binary64 double, ties to even: normals, subnormals (exponent clamped at
`-1074`), and overflow to infinity. -/
def roundPosToDouble (neg : Bool) (a b : Nat) : PyFloat :=
  if a = 0 then .finite neg 0 0
  else
    let L : Int := (bitLen a : Int) - (bitLen b : Int)
    let e0 := adjustE a b (L - 53) 8
    let e1 := max e0 (-1074)
    let (num, den) :=
      if e1 ≥ 0 then (a, b * 2 ^ e1.toNat) else (a * 2 ^ (-e1).toNat, b)
    let n := rhe num den
    let (n, e2) := if n = 2 ^ 53 then (2 ^ 52, e1 + 1) else (n, e1)
    if n = 0 then .finite neg 0 0
    else if e2 ≥ 972 then .inf neg
    else .finite neg n e2

/-- IEEE-754 double multiplication: exact product, rounded to nearest,
ties to even; `inf * 0` is `nan`; signed zeros as in IEEE. -/
def pyFloatMul (x y : PyFloat) : PyFloat :=
  match x, y with
  | .nan, _ => .nan
  | _, .nan => .nan
  | .inf nx, .inf ny => .inf (xor nx ny)
  | .inf nx, .finite ny m _ => if m = 0 then .nan else .inf (xor nx ny)
  | .finite nx m _, .inf ny => if m = 0 then .nan else .inf (xor nx ny)
  | .finite nx mx ex, .finite ny my ey =>
    let neg := xor nx ny
    if mx * my = 0 then .finite neg 0 0
    else
      let e := ex + ey
      if e ≥ 0 then roundPosToDouble neg (mx * my * 2 ^ e.toNat) 1
      else roundPosToDouble neg (mx * my) (2 ^ (-e).toNat)

/-- Decimal part of the Python float grammar (after sign): digits, optional
point, digits, optional exponent; the whole input must be consumed.
Returns the exact value as a nonnegative rational `a / b`. -/
def pyFloatDec (cs : List Char) : Option (Nat × Nat) :=
  let ip := cs.takeWhile Char.isDigit
  let r1 := cs.drop ip.length
  let (fp, r2) :=
    match r1 with
    | '.' :: t => (t.takeWhile Char.isDigit, t.drop (t.takeWhile Char.isDigit).length)
    | _ => ([], r1)
  if ip = [] ∧ fp = [] then none
  else
    let mant := digitsVal (ip ++ fp)
    let fracLen := fp.length
    match r2 with
    | [] => some (mant, 10 ^ fracLen)
    | e :: rest =>
      if e = 'e' ∨ e = 'E' then
        let (eneg, ds) :=
          match rest with
          | '-' :: r => (true, r)
          | '+' :: r => (false, r)
          | r => (false, r)
        if ds ≠ [] ∧ ds.all Char.isDigit then
          let ex := digitsVal ds
          if eneg then some (mant, 10 ^ (fracLen + ex))
          else if ex ≥ fracLen then some (mant * 10 ^ (ex - fracLen), 1)
          else some (mant, 10 ^ (fracLen - ex))
        else none
      else none

/-- Python 2 `float(s)`: strip whitespace, optional sign, then `inf` /
`infinity` / `nan` (case-insensitive) or a decimal literal, correctly
rounded to a double (overflow gives infinity, underflow a subnormal or
zero).  `none` is `ValueError`. -/
def pyFloat (s : String) : Option PyFloat :=
  let cs := ((s.toList.dropWhile Char.isWhitespace).reverse.dropWhile
    Char.isWhitespace).reverse
  let (neg, cs) :=
    match cs with
    | '-' :: r => (true, r)
    | '+' :: r => (false, r)
    | r => (false, r)
  let lower := cs.map Char.toLower
  if lower = ['i', 'n', 'f'] ∨ lower = ['i', 'n', 'f', 'i', 'n', 'i', 't', 'y'] then
    some (.inf neg)
  else if lower = ['n', 'a', 'n'] then some .nan
  else
    match pyFloatDec cs with
    | some (a, b) => some (roundPosToDouble neg a b)
    | none => none

/-- Floor of `(a / b) / 10 ^ d`. -/
def pow10ShiftFloor (a b : Nat) (d : Int) : Nat :=
  if d ≥ 0 then a / (b * 10 ^ d.toNat) else (a * 10 ^ (-d).toNat) / b

/-- Adjust the candidate decimal exponent until
`floor((a/b) / 10^d) ∈ [1, 10)`, i.e. `d = floor(log10 (a/b))`. -/
def adjustD (a b : Nat) : Int → Nat → Int
  | d, 0 => d
  | d, fuel + 1 =>
    let n := pow10ShiftFloor a b d
    if n = 0 then adjustD a b (d - 1) fuel
    else if n ≥ 10 then adjustD a b (d + 1) fuel
    else d

/-- `%.12g` of the positive double `m * 2^e`, plus CPython 2's add-dot-zero
fixup: round the exact value to 12 significant decimal digits (ties to
even), strip trailing zeros, use exponential style when the decimal
exponent is below `-4` or at least `12` (two-digit minimum exponent),
and append `.0` when the fixed form has no fractional digits. -/
def fmtPosG12 (m : Nat) (e : Int) : String :=
  let (a, b) := if e ≥ 0 then (m * 2 ^ e.toNat, 1) else (m, 2 ^ (-e).toNat)
  let L : Int := (bitLen a : Int) - (bitLen b : Int)
  let d0 : Int :=
    if L ≥ 0 then ((L.toNat * 30103 / 100000 : Nat) : Int)
    else -(((-L).toNat * 30103 / 100000 + 1 : Nat) : Int)
  let d := adjustD a b d0 12
  let p : Int := d - 11
  let (num, den) :=
    if p ≥ 0 then (a, b * 10 ^ p.toNat) else (a * 10 ^ (-p).toNat, b)
  let N := rhe num den
  let (N, d) := if N = 10 ^ 12 then (10 ^ 11, d + 1) else (N, d)
  let ds := (toString N).toList
  let ds := (ds.reverse.dropWhile (fun c => c = '0')).reverse
  let ds := if ds = [] then ['0'] else ds
  if d < -4 ∨ d ≥ 12 then
    let mstr := String.mk [ds.headD '0'] ++
      (if ds.length > 1 then "." ++ String.mk ds.tail else "")
    let absd := (if d < 0 then -d else d).toNat
    let estr := (if d < 0 then "-" else "+") ++
      (if absd < 10 then "0" ++ toString absd else toString absd)
    mstr ++ "e" ++ estr
  else if d ≥ 0 then
    if ds.length ≤ d.toNat + 1 then
      String.mk (ds ++ List.replicate (d.toNat + 1 - ds.length) '0') ++ ".0"
    else
      String.mk (ds.take (d.toNat + 1)) ++ "." ++ String.mk (ds.drop (d.toNat + 1))
  else
    "0." ++ String.mk (List.replicate ((-d).toNat - 1) '0' ++ ds)

/-- Python 2 `str(f)`: `%.12g` with the add-dot-zero fixup; `inf`, `-inf`
and `nan` print as themselves, zeros keep their sign. -/
def floatStr (q : PyFloat) : String :=
  match q with
  | .nan => "nan"
  | .inf neg => if neg then "-inf" else "inf"
  | .finite neg m e =>
    if m = 0 then (if neg then "-0.0" else "0.0")
    else (if neg then "-" else "") ++ fmtPosG12 m e

/-- `UNIT_TO_SCALE`: scaling factors for converting Nagios performance data
into canonical units.  `GB`/`MB`/`KB` are Python ints (exactly converted
to doubles by the multiplication); `ms`/`usec`/`%` are the float literals
`0.001`/`0.000001`/`0.01`, i.e. the doubles nearest those decimals. -/
def UNIT_TO_SCALE : Dict PyFloat :=
  [("GB", .finite false (1024 * 1024 * 1024) 0),
   ("MB", .finite false (1024 * 1024) 0),
   ("KB", .finite false 1024 0),
   ("ms", roundPosToDouble false 1 1000),
   ("usec", roundPosToDouble false 1 1000000),
   ("%", roundPosToDouble false 1 100)]

/-- Character class of `UNIT_REGEX`'s first group: `[0-9.]`. -/
def isNumDot (c : Char) : Bool := c.isDigit || c = '.'

/-- `parse_value_and_unit(raw)`: `UNIT_REGEX.match` with groups
`([0-9.]+)([^0-9.]+)?`; no match returns the raw value with empty unit. -/
def parse_value_and_unit (raw : String) : String × String :=
  let v := raw.toList.takeWhile isNumDot
  if v = [] then (raw, "")
  else (String.mk v,
        String.mk ((raw.toList.dropWhile isNumDot).takeWhile (fun c => !isNumDot c)))

/-- `convert_value_to_base_unit(value, unit)`. -/
def convert_value_to_base_unit (value unit : String) : String :=
  if unit = "" then value
  else
    match dictGet? UNIT_TO_SCALE unit with
    | none => value
    | some scale =>
      match pyFloat value with
      | none => value ++ unit
      | some q => floatStr (pyFloatMul q scale)

/-- Accumulating loop of `parse_perf_data_fields`. -/
def ppdfAux : Dict (List String) → List String → Except String (Dict (List String))
  | acc, [] => .ok acc
  | acc, raw_value :: rest =>
    match pySplit raw_value '=' with
    | [name, values] => ppdfAux (dictInsert acc name (pySplit values ';')) rest
    | _ => .error "ValueError: unpacking of raw_value.split requires exactly two values"

/-- `parse_perf_data_fields(raw_perf_data)`: each element must split on `=`
into exactly a name and a `;`-separated value list, else `ValueError`. -/
def parse_perf_data_fields (raw_perf_data : List String) :
    Except String (Dict (List String)) :=
  ppdfAux [] raw_perf_data

/-- Inner loop of `get_perf_data`: `for i, field_name in enumerate(field_names)`,
starting at index `i`.  Out-of-range positions are Python `IndexError`. -/
def perfFields (check_command : String) (labels : Labels) (raw_values : List String)
    (unit : String) : Nat → List String → Except String (List (String × Labels × String))
  | _, [] => .ok []
  | i, field_name :: rest =>
    if field_name = "" then perfFields check_command labels raw_values unit (i + 1) rest
    else
      match raw_values.get? i with
      | none => .error "IndexError: list index out of range"
      | some raw =>
        let value := (parse_value_and_unit raw).1
        let base_value := convert_value_to_base_unit value unit
        match perfFields check_command labels raw_values unit (i + 1) rest with
        | .ok ms => .ok ((check_command ++ "_perf_data" ++ "_" ++ field_name, labels, base_value) :: ms)
        | .error e => .error e

/-- Outer loop of `get_perf_data`: one pass per key of the values map.
The unit is taken from the first positional value only. -/
def perfKeys (check_command : String) (metric_labels : Labels)
    (names_map : Dict (List String)) :
    Dict (List String) → Except String (List (String × Labels × String))
  | [] => .ok []
  | (key, raw_values) :: rest =>
    let labels := dictUpdate [("key", key)] metric_labels
    match raw_values.get? 0 with
    | none => .error "IndexError: list index out of range"
    | some first =>
      let unit := (parse_value_and_unit first).2
      let field_names := (dictGet? names_map check_command).getD ["value"]
      match perfFields check_command labels raw_values unit 0 field_names with
      | .error e => .error e
      | .ok ms =>
        match perfKeys check_command metric_labels names_map rest with
        | .error e => .error e
        | .ok more => .ok (ms ++ more)

/-- `get_perf_data(check_command, metric_labels, raw_perf_data_values,
raw_perf_data_names)`. -/
def get_perf_data (check_command : String) (metric_labels : Labels)
    (raw_perf_data_values raw_perf_data_names : List String) :
    Except String (List (String × Labels × String)) :=
  match parse_perf_data_fields raw_perf_data_values with
  | .error e => .error e
  | .ok values_map =>
    match parse_perf_data_fields raw_perf_data_names with
    | .error e => .error e
    | .ok names_map => perfKeys check_command metric_labels names_map values_map

/-- `canonical_command(cmd)`: `fields[1]` raises `IndexError` when the
command is the bare nrpe wrapper with no argument. -/
def canonical_command (cmd : String) : Except String String :=
  match pySplit cmd '!' with
  | [] => .error "IndexError: list index out of range"
  | f0 :: rest =>
    if f0 = "check_nrpe2" then
      match rest with
      | [] => .error "IndexError: list index out of range"
      | f1 :: _ => .ok f1
    else .ok f0

/-- `format_labels(labels)`. -/
def format_labels (labels : Labels) : String :=
  if labels.isEmpty then ""
  else "\x7b" ++ pyJoin ", " (labels.map (fun p => p.1 ++ "=\"" ++ p.2 ++ "\"")) ++ "\x7d"

/-- `format_metric(name, labels, value)`. -/
def format_metric (name : String) (labels : Labels) (value : String) : String :=
  "nagios_" ++ dashToUnderscore name ++ format_labels labels ++ " " ++ value

/-- `Service`: named fields for the `COLUMNS` of the services query, in
column order.  Scalars are carried as their `str()` renderings, which is
what `format_metric`'s `%s` interpolation consumes. -/
structure Service where
  host_name : String
  service_description : String
  state : String
  latency : String
  perf_data : String
  process_performance_data : String
  check_command : String
  acknowledged : String
  execution_time : String
  is_flapping : String
  deriving DecidableEq, Repr

/-- `Service(*s)`: a row must carry exactly the ten columns, else
`TypeError`. -/
def service_of_row : List String → Except String Service
  | [hn, sd, st, lat, pd, ppd, cc, ack, et, fl] =>
    .ok ⟨hn, sd, st, lat, pd, ppd, cc, ack, et, fl⟩
  | _ => .error "TypeError: wrong number of columns for Service"

/-- `get_status(session)` applied to the rows the status query returned:
`status[0]`/`status[1]` raise `IndexError` when fewer than two rows came
back. -/
def get_status (rows : List (List String)) : Except String (List String) :=
  match rows with
  | r0 :: r1 :: _ =>
    let values := (List.zip r0 r1).foldl (fun d p => dictInsert d p.1 p.2) ([] : Labels)
    .ok (values.map (fun p => format_metric p.1 [] p.2))
  | _ => .error "IndexError: list index out of range"

/-- The five always-emitted metric lines of one service record. -/
def fiveServiceLines (cmd : String) (s : Service) : List String :=
  let labels : Labels := [("hostname", s.host_name), ("service", s.service_description)]
  [format_metric (cmd ++ "_exec_time") labels s.execution_time,
   format_metric (cmd ++ "_latency") labels s.latency,
   format_metric (cmd ++ "_state") labels s.state,
   format_metric (cmd ++ "_flapping") labels s.is_flapping,
   format_metric (cmd ++ "_acknowledged") labels s.acknowledged]

/-- Performance-data lines of one service record (empty when disabled or
when the record carries no performance data). -/
def servicePerfLines (use_perf_data : Bool) (raw_perf_data_names : List String)
    (cmd : String) (labels : Labels) (s : Service) : Except String (List String) :=
  if use_perf_data = true ∧ s.perf_data ≠ "" then
    match get_perf_data cmd labels (pySplitWs s.perf_data) raw_perf_data_names with
    | .error e => .error e
    | .ok values => .ok (values.map (fun m => format_metric m.1 m.2.1 m.2.2))
  else .ok []

/-- Per-service loop of `get_services`. -/
def servicesLines (use_perf_data : Bool) (raw_perf_data_names : List String) :
    List Service → Except String (List String)
  | [] => .ok []
  | s :: rest =>
    match canonical_command s.check_command with
    | .error e => .error e
    | .ok cmd =>
      let labels : Labels := [("hostname", s.host_name), ("service", s.service_description)]
      match servicePerfLines use_perf_data raw_perf_data_names cmd labels s with
      | .error e => .error e
      | .ok perf =>
        match servicesLines use_perf_data raw_perf_data_names rest with
        | .error e => .error e
        | .ok more => .ok (fiveServiceLines cmd s ++ perf ++ more)

/-- `[Service(*s) for s in session.query(query)]`. -/
def rowsToServices : List (List String) → Except String (List Service)
  | [] => .ok []
  | r :: rest =>
    match service_of_row r with
    | .error e => .error e
    | .ok s =>
      match rowsToServices rest with
      | .error e => .error e
      | .ok ss => .ok (s :: ss)

/-- `get_services(session, use_perf_data, raw_perf_data_names)` applied to
the rows the services query returned. -/
def get_services (use_perf_data : Bool) (raw_perf_data_names : List String)
    (rows : List (List String)) : Except String (List String) :=
  match rowsToServices rows with
  | .error e => .error e
  | .ok services => servicesLines use_perf_data raw_perf_data_names services

/-- The `NagiosError` exception family. -/
inductive NagiosErr where
  | connect (msg : String)
  | query (msg : String)
  | response (msg : String)
  deriving DecidableEq, Repr

/-- One socket read outcome: a data chunk, or a raised `socket.error`. -/
inductive SockEvent where
  | chunk (data : List Char)
  | err (msg : String)
  deriving DecidableEq, Repr

/-- `LiveStatus._receive(count)`: loop reading chunks until `count` bytes
are consumed.  `recv` returns at most the requested number of bytes (the
`take`); a zero-byte read raises `NagiosResponseError`, a `socket.error`
(including the bounded-wait timeout, modelled by an exhausted script)
raises `NagiosResponseError`. -/
def receive : Nat → List SockEvent → Except NagiosErr (List Char × List SockEvent)
  | 0, sock => .ok ([], sock)
  | _ + 1, [] => .error (.response "timed out")
  | _ + 1, .err msg :: _ => .error (.response msg)
  | n + 1, .chunk c :: rest =>
    let d := c.take (n + 1)
    if d.length = 0 then
      .error (.response "Failed to read data from nagios server.")
    else
      match receive (n + 1 - d.length) rest with
      | .ok (s, r) => .ok (d ++ s, r)
      | .error e => .error e

/-- Either a `NagiosError` or an uncaught Python exception. -/
inductive PErr where
  | nagios (e : NagiosErr)
  | py (msg : String)
  deriving DecidableEq, Repr

/-- Drop JSON whitespace. -/
def skipWs (cs : List Char) : List Char :=
  cs.dropWhile (fun c => c.isWhitespace)

/-- Body of a JSON string literal (after the opening quote). -/
def parseJStr : List Char → Option (String × List Char)
  | [] => none
  | '"' :: rest => some ("", rest)
  | '\\' :: c :: rest => do
    let e ← match c with
      | '"' => some '"'
      | '\\' => some '\\'
      | '/' => some '/'
      | 'n' => some '\n'
      | 't' => some '\t'
      | 'r' => some '\r'
      | _ => none
    let (s, r) ← parseJStr rest
    pure (String.mk [e] ++ s, r)
  | c :: rest => do
    let (s, r) ← parseJStr rest
    pure (String.mk [c] ++ s, r)

/-- One JSON scalar, rendered to the string `%s` interpolation would show:
strings keep their text, numbers keep their lexeme, and the literals
`true`/`false`/`null` become Python's `True`/`False`/`None`. -/
def parseScalarTok (cs : List Char) : Option (String × List Char) :=
  match cs with
  | '"' :: rest => parseJStr rest
  | _ =>
    let tok := cs.takeWhile (fun c => c.isDigit || c.isAlpha || c = '-' || c = '+' || c = '.')
    if tok = [] then none
    else
      let s := String.mk tok
      let s := if s = "true" then "True" else if s = "false" then "False"
               else if s = "null" then "None" else s
      some (s, cs.drop tok.length)

/-- Scalars of one JSON row, after its opening bracket. -/
def parseItems : Nat → List Char → Option (List String × List Char)
  | 0, _ => none
  | fuel + 1, cs =>
    match skipWs cs with
    | ']' :: rest => some ([], rest)
    | cs' => do
      let (v, cs'') ← parseScalarTok cs'
      match skipWs cs'' with
      | ',' :: rest => do
        let (vs, r) ← parseItems fuel rest
        pure (v :: vs, r)
      | ']' :: rest => pure ([v], rest)
      | _ => none

/-- Rows of the JSON array-of-arrays, after the outer opening bracket. -/
def parseRows : Nat → List Char → Option (List (List String) × List Char)
  | 0, _ => none
  | fuel + 1, cs =>
    match skipWs cs with
    | ']' :: rest => some ([], rest)
    | '[' :: rest => do
      let (row, cs') ← parseItems fuel rest
      match skipWs cs' with
      | ',' :: rest' => do
        let (rs, r) ← parseRows fuel rest'
        pure (row :: rs, r)
      | ']' :: rest' => pure ([row], rest')
      | _ => none
    | _ => none

/-- `json.loads(data)` restricted to the livestatus array-of-arrays shape;
any other payload is a `ValueError`. -/
def json_loads (data : List Char) : Except String (List (List String)) :=
  match skipWs data with
  | '[' :: rest =>
    match parseRows (data.length + 1) rest with
    | some (rows, r) =>
      if skipWs r = [] then .ok rows
      else .error "ValueError: Extra data"
    | none => .error "ValueError: No JSON object could be decoded"
  | _ => .error "ValueError: No JSON object could be decoded"

/-- `LiveStatus.query(query)` on a modelled socket.  `send_err` is the
outcome of `sendall` (a `socket.error` raises `NagiosQueryError`), `sock`
the read script.  `code, length = header.split()` raises `ValueError` when
the 16-byte header does not split into exactly two fields, as does a
non-numeric length. -/
def LiveStatus_query (send_err : Option String) (sock : List SockEvent) :
    Except PErr (List (List String)) :=
  match send_err with
  | some e => .error (.nagios (.query e))
  | none =>
    match receive 16 sock with
    | .error e => .error (.nagios e)
    | .ok (header, rest) =>
      match pySplitWs (String.mk header) with
      | [code, lenS] =>
        match pyInt lenS with
        | none => .error (.py "ValueError: invalid literal for int()")
        | some n =>
          match receive n.toNat rest with
          | .error e => .error (.nagios e)
          | .ok (data, _) =>
            if code = "200" then
              match json_loads data with
              | .ok rows => .ok rows
              | .error e => .error (.py e)
            else
              .error (.nagios (.response
                ("Livestatus error: " ++ code ++ ": " ++ pyStrip (String.mk data))))
      | _ => .error (.py "ValueError: unpacking of header.split requires exactly two values")

/-- The command-line configuration consumed by `collect_metrics`. -/
structure Args where
  path : String
  whitelist : List String
  all_metrics : Bool
  dump_metrics : Bool
  use_perf_data : Bool
  data_names : List String
  deriving DecidableEq, Repr

/-- The environment of one collection: whether the socket path exists, and
the outcomes of the two connect/query exchanges (each query owns a fresh
connection; its wire-level behaviour is modelled by its outcome). -/
structure Sys where
  path_exists : Bool
  connect1 : Option String
  status_rows : Except NagiosErr (List (List String))
  connect2 : Option String
  service_rows : Except NagiosErr (List (List String))
  deriving Repr

/-- `collect_metrics(args, lines)`: returns the lines accumulated in order
and the exception (if any) left uncaught by `collect_metrics` itself. -/
def collect_metrics (args : Args) (sys : Sys) : List String × Option PErr :=
  if sys.path_exists = false then
    (["# livestatus socket does not exist! " ++ args.path,
      "nagios_livestatus_available 0"], none)
  else
    let lines := ["nagios_livestatus_available 1"]
    match sys.connect1 with
    | some e => (lines, some (.nagios (.connect e)))
    | none =>
      match sys.status_rows with
      | .error e => (lines, some (.nagios e))
      | .ok rows =>
        match get_status rows with
        | .error e => (lines, some (.py e))
        | .ok status_lines =>
          let lines := lines ++ status_lines
          if args.whitelist ≠ [] ∨ args.all_metrics = true ∨ args.dump_metrics = true then
            match sys.connect2 with
            | some e => (lines, some (.nagios (.connect e)))
            | none =>
              match sys.service_rows with
              | .error e => (lines, some (.nagios e))
              | .ok rows2 =>
                match get_services args.use_perf_data args.data_names rows2 with
                | .error e => (lines, some (.py e))
                | .ok services =>
                  if args.whitelist ≠ [] then
                    (lines ++ args.whitelist.flatMap
                      (fun w => services.filter (fun x => pyContains w x)), none)
                  else (lines ++ services, none)
          else (lines, none)

/-- `'\n'.join(lines) + '\n'`. -/
def joinLines (lines : List String) : String := pyJoin "\n" lines ++ "\n"

/-- `metrics(args)`: catches only `NagiosError`; other exceptions escape to
the transport. -/
def metrics (args : Args) (sys : Sys) : Except String String :=
  match collect_metrics args sys with
  | (lines, none) => .ok (joinLines (lines ++ ["nagios_exporter_success 1"]))
  | (lines, some (.nagios _)) => .ok (joinLines (lines ++ ["nagios_exporter_success 0"]))
  | (_, some (.py e)) => .error e

/-! ## Helper lemmas -/

instance {ε α : Type} [DecidableEq ε] [DecidableEq α] : DecidableEq (Except ε α) :=
  fun x y =>
    match x, y with
    | .ok a, .ok b =>
      if h : a = b then .isTrue (by rw [h])
      else .isFalse (by intro hh; exact h (Except.ok.inj hh))
    | .error a, .error b =>
      if h : a = b then .isTrue (by rw [h])
      else .isFalse (by intro hh; exact h (Except.error.inj hh))
    | .ok _, .error _ => .isFalse (by intro hh; exact Except.noConfusion hh)
    | .error _, .ok _ => .isFalse (by intro hh; exact Except.noConfusion hh)

lemma joinFoldAux (x : String) : ∀ (ys : List String) (acc : String),
    ∃ p, ((ys ++ [x]).foldl (fun a y => a ++ "\n" ++ y) acc) = p ++ x := by
  intro ys
  induction ys with
  | nil => intro acc; exact ⟨acc ++ "\n", rfl⟩
  | cons y ys ih => intro acc; simpa using ih (acc ++ "\n" ++ y)

lemma pyJoin_last (l : List String) (x : String) :
    ∃ p, pyJoin "\n" (l ++ [x]) = p ++ x := by
  cases l with
  | nil => exact ⟨"", rfl⟩
  | cons y ys => simpa [pyJoin] using joinFoldAux x ys y

lemma joinLines_last (l : List String) (x : String) :
    ∃ p, joinLines (l ++ [x]) = p ++ (x ++ "\n") := by
  obtain ⟨p, hp⟩ := pyJoin_last l x
  exact ⟨p, by simp [joinLines, hp, String.append_assoc]⟩

/-! ## Claim theorems -/

/-- Claim C2: for the raw performance-data token `/=2400MB;48356;54400;0;60445`
with field-name hint `check_disk=used;free;;;total`, empty base labels and
command prefix `check_disk`, `get_perf_data` returns exactly the three
metric triples `used`/`free`/`total` with label `key="/"` and the MB-scaled
values; empty hint names are skipped and the unit comes from the first
positional value only.  Without a hint for the command, the single default
field name `value` covering position 0 is used. -/
theorem get_perf_data_check_disk_example :
    get_perf_data "check_disk" [] ["/=2400MB;48356;54400;0;60445"]
        ["check_disk=used;free;;;total"] =
      .ok [("check_disk_perf_data_used", [("key", "/")], "2516582400.0"),
           ("check_disk_perf_data_free", [("key", "/")], "50704941056.0"),
           ("check_disk_perf_data_total", [("key", "/")], "63381176320.0")] ∧
    get_perf_data "check_disk" [] ["/=2400MB;48356;54400;0;60445"] [] =
      .ok [("check_disk_perf_data_value", [("key", "/")], "2516582400.0")] := by
  constructor <;> decide

set_option maxRecDepth 8192 in
/-- Claim C3: `convert_value_to_base_unit` returns the value unchanged for an
empty unit; for a recognized unit it returns the string form of the parsed
value times the unit's scale, or the value with the unit appended verbatim
when float parsing fails; an unrecognized unit returns the value unchanged.
Examples: `("2400","KB") = "2457600.0"` and `("2400","hz") = "2400"`. -/
theorem convert_value_to_base_unit_spec (v u : String) :
    (u = "" → convert_value_to_base_unit v u = v) ∧
    (∀ s : PyFloat, dictGet? UNIT_TO_SCALE u = some s →
      (∀ q : PyFloat, pyFloat v = some q →
        convert_value_to_base_unit v u = floatStr (pyFloatMul q s)) ∧
      (pyFloat v = none → convert_value_to_base_unit v u = v ++ u)) ∧
    (u ≠ "" → dictGet? UNIT_TO_SCALE u = none → convert_value_to_base_unit v u = v) ∧
    convert_value_to_base_unit "2400" "KB" = "2457600.0" ∧
    convert_value_to_base_unit "2400" "hz" = "2400" ∧
    convert_value_to_base_unit "5" "usec" = "5e-06" ∧
    convert_value_to_base_unit "1000" "GB" = "1.073741824e+12" ∧
    convert_value_to_base_unit "12345678.901" "KB" = "12641975194.6" ∧
    convert_value_to_base_unit "inf" "ms" = "inf" ∧
    convert_value_to_base_unit "v3.1" "KB" = "v3.1KB" := by
  refine ⟨?_, ?_, ?_, by decide, by decide, by decide, by decide, by decide,
    by decide, by decide⟩
  · intro h; simp [convert_value_to_base_unit, h]
  · intro s hs
    have hu : u ≠ "" := by
      intro h
      subst h
      rw [show dictGet? UNIT_TO_SCALE "" = (none : Option PyFloat) from rfl] at hs
      exact Option.noConfusion hs
    refine ⟨fun q hq => ?_, fun hq => ?_⟩
    · simp [convert_value_to_base_unit, hu, hs, hq]
    · simp [convert_value_to_base_unit, hu, hs, hq]
  · intro hu hn
    simp [convert_value_to_base_unit, hu, hn]

/-- Witness for C3: the empty-unit case at a concrete input. -/
theorem convert_value_to_base_unit_spec_witness :
    convert_value_to_base_unit "2400" "" = "2400" :=
  (convert_value_to_base_unit_spec "2400" "").1 rfl

/-- Claim C7: `parse_value_and_unit` splits a leading `[0-9.]` run from an
optional trailing non-`[0-9.]` suffix; a string with no leading numeric run
is returned whole with an empty unit.  Examples: `"2400MB"`, `"30%"`,
`"3.4"`, `"v0.3.4"`. -/
theorem parse_value_and_unit_spec (s : String) :
    (∀ c, s.toList.head? = some c → isNumDot c = false →
      parse_value_and_unit s = (s, "")) ∧
    (s = "" → parse_value_and_unit s = (s, "")) ∧
    (∀ c, s.toList.head? = some c → isNumDot c = true →
      (parse_value_and_unit s).1 = String.mk (s.toList.takeWhile isNumDot) ∧
      (parse_value_and_unit s).2 =
        String.mk ((s.toList.dropWhile isNumDot).takeWhile (fun c => !isNumDot c))) ∧
    parse_value_and_unit "2400MB" = ("2400", "MB") ∧
    parse_value_and_unit "30%" = ("30", "%") ∧
    parse_value_and_unit "3.4" = ("3.4", "") ∧
    parse_value_and_unit "v0.3.4" = ("v0.3.4", "") := by
  refine ⟨?_, ?_, ?_, by decide, by decide, by decide, by decide⟩
  · intro c hc hnum
    have htw : s.toList.takeWhile isNumDot = [] := by
      cases hl : s.toList with
      | nil => rfl
      | cons a t =>
        rw [hl] at hc
        have ha : a = c := by injection hc
        rw [List.takeWhile_cons, ha, hnum]
        simp
    simp only [parse_value_and_unit, htw]
    simp
  · intro h
    subst h
    decide
  · intro c hc hnum
    have htw : s.toList.takeWhile isNumDot ≠ [] := by
      cases hl : s.toList with
      | nil => rw [hl] at hc; exact Option.noConfusion hc
      | cons a t =>
        rw [hl] at hc
        have ha : a = c := by injection hc
        rw [List.takeWhile_cons, ha, hnum]
        simp
    simp only [parse_value_and_unit]
    rw [if_neg htw]
    exact ⟨rfl, rfl⟩

/-- Witness for C7: the no-numeric-run case at a concrete input. -/
theorem parse_value_and_unit_spec_witness :
    parse_value_and_unit "v0.3.4" = ("v0.3.4", "") :=
  (parse_value_and_unit_spec "v0.3.4").1 'v' rfl rfl

/-- Claim C9: when the socket path does not exist, `collect_metrics` appends
only the diagnostic comment and the `nagios_livestatus_available 0`
sentinel and stops, independently of every query outcome (so no connection
or query result can influence the output, and no status- or
service-derived metric appears). -/
theorem collect_metrics_missing_socket (args : Args) (sys : Sys)
    (h : sys.path_exists = false) :
    collect_metrics args sys =
      (["# livestatus socket does not exist! " ++ args.path,
        "nagios_livestatus_available 0"], none) ∧
    (∀ sys' : Sys, sys'.path_exists = false →
      collect_metrics args sys = collect_metrics args sys') := by
  constructor
  · simp [collect_metrics, h]
  · intro sys' h'
    simp [collect_metrics, h, h']

/-- Witness for C9 at a concrete configuration and environment. -/
theorem collect_metrics_missing_socket_witness :
    collect_metrics
      { path := "/sock", whitelist := [], all_metrics := false,
        dump_metrics := false, use_perf_data := false, data_names := [] }
      { path_exists := false, connect1 := none, status_rows := .ok [],
        connect2 := none, service_rows := .ok [] } =
      (["# livestatus socket does not exist! /sock",
        "nagios_livestatus_available 0"], none) := by
  have h := (collect_metrics_missing_socket
    { path := "/sock", whitelist := [], all_metrics := false,
      dump_metrics := false, use_perf_data := false, data_names := [] }
    { path_exists := false, connect1 := none, status_rows := .ok [],
      connect2 := none, service_rows := .ok [] } rfl).1
  exact h.trans (by decide)

lemma receive_ok_length : ∀ (sock : List SockEvent) (n : Nat) (s : List Char)
    (r : List SockEvent), receive n sock = .ok (s, r) → s.length = n := by
  intro sock
  induction sock with
  | nil =>
    intro n s r h
    cases n with
    | zero =>
      simp only [receive, Except.ok.injEq, Prod.mk.injEq] at h
      rw [← h.1]
      rfl
    | succ n => simp [receive] at h
  | cons ev rest ih =>
    intro n s r h
    cases n with
    | zero =>
      simp only [receive, Except.ok.injEq, Prod.mk.injEq] at h
      rw [← h.1]
      rfl
    | succ n =>
      cases ev with
      | err m => simp [receive] at h
      | chunk c =>
        simp only [receive] at h
        by_cases hd : (c.take (n + 1)).length = 0
        · rw [if_pos hd] at h
          exact Except.noConfusion h
        · rw [if_neg hd] at h
          cases hr : receive (n + 1 - (c.take (n + 1)).length) rest with
          | error e => rw [hr] at h; exact Except.noConfusion h
          | ok pr =>
            obtain ⟨s', r'⟩ := pr
            rw [hr] at h
            have hs := (Prod.mk.injEq .. ▸ Except.ok.inj h).1
            have hlen := ih (n + 1 - (c.take (n + 1)).length) s' r' hr
            have htake : (c.take (n + 1)).length ≤ n + 1 := by
              rw [List.length_take]
              exact Nat.min_le_left _ _
            rw [← hs, List.length_append, hlen]
            omega

lemma receive_error_response : ∀ (sock : List SockEvent) (n : Nat) (e : NagiosErr),
    receive n sock = .error e → ∃ m, e = .response m := by
  intro sock
  induction sock with
  | nil =>
    intro n e h
    cases n with
    | zero => simp [receive] at h
    | succ n =>
      simp only [receive, Except.error.injEq] at h
      exact ⟨_, h.symm⟩
  | cons ev rest ih =>
    intro n e h
    cases n with
    | zero => simp [receive] at h
    | succ n =>
      cases ev with
      | err m =>
        simp only [receive, Except.error.injEq] at h
        exact ⟨_, h.symm⟩
      | chunk c =>
        simp only [receive] at h
        by_cases hd : (c.take (n + 1)).length = 0
        · rw [if_pos hd] at h
          exact ⟨_, (Except.error.inj h).symm⟩
        · rw [if_neg hd] at h
          cases hr : receive (n + 1 - (c.take (n + 1)).length) rest with
          | error e' =>
            rw [hr] at h
            have := Except.error.inj h
            exact this ▸ ih _ e' hr
          | ok pr => rw [hr] at h; exact Except.noConfusion h

/-- Claim C10: `_receive` either raises or returns exactly the requested
number of bytes (zero-byte reads and transport errors raise); consequently
a successful `query` read a 16-byte header and a payload of exactly the
declared length. -/
theorem receive_reads_exact_count :
    (∀ (n : Nat) (sock : List SockEvent) (s : List Char) (r : List SockEvent),
      receive n sock = .ok (s, r) → s.length = n) ∧
    (∀ (sock : List SockEvent) (rows : List (List String)),
      LiveStatus_query none sock = .ok rows →
      ∃ header rest code lenS n data rest2,
        receive 16 sock = .ok (header, rest) ∧ header.length = 16 ∧
        pySplitWs (String.mk header) = [code, lenS] ∧
        pyInt lenS = some n ∧
        receive n.toNat rest = .ok (data, rest2) ∧
        data.length = n.toNat) := by
  constructor
  · intro n sock s r h
    exact receive_ok_length sock n s r h
  · intro sock rows hq
    simp only [LiveStatus_query] at hq
    split at hq
    · exact Except.noConfusion hq
    · rename_i pr header rest h16
      split at hq
      · rename_i code lenS hsp
        split at hq
        · exact Except.noConfusion hq
        · rename_i n hint
          split at hq
          · exact Except.noConfusion hq
          · rename_i pr2 data rest2 hrecv
            exact ⟨header, rest, code, lenS, n, data, rest2, h16,
              receive_ok_length sock 16 header rest h16, hsp, hint, hrecv,
              receive_ok_length rest n.toNat data rest2 hrecv⟩
      · exact Except.noConfusion hq

/-- Witness for C10 on a concrete successful exchange. -/
theorem receive_reads_exact_count_witness :
    ("200          16\n".toList).length = 16 ∧
    ("[[1, 2], [3, 4]]".toList).length = 16 := by
  constructor
  · exact receive_reads_exact_count.1 16
      [.chunk "200          16\n".toList, .chunk "[[1, 2], [3, 4]]".toList]
      "200          16\n".toList [.chunk "[[1, 2], [3, 4]]".toList] (by decide)
  · exact receive_reads_exact_count.1 16
      [.chunk "[[1, 2], [3, 4]]".toList] "[[1, 2], [3, 4]]".toList [] (by decide)

/-- Claim C4: a send failure raises `NagiosQueryError`; every `_receive`
failure (transport error or premature close) is response-kind; with the
header read, split into code and length, and the payload read, a `200`
code returns the parsed array-of-arrays payload, and any other code raises
`NagiosResponseError` carrying the code and the trimmed payload. -/
theorem query_protocol_spec :
    (∀ (e : String) (sock : List SockEvent),
      LiveStatus_query (some e) sock = .error (.nagios (.query e))) ∧
    (∀ (n : Nat) (sock : List SockEvent) (e : NagiosErr),
      receive n sock = .error e → ∃ m, e = .response m) ∧
    (∀ (sock : List SockEvent) (e : NagiosErr),
      receive 16 sock = .error e →
      LiveStatus_query none sock = .error (.nagios e)) ∧
    (∀ (sock : List SockEvent) (header : List Char) (rest : List SockEvent)
        (code lenS : String) (n : Int),
      receive 16 sock = .ok (header, rest) →
      pySplitWs (String.mk header) = [code, lenS] →
      pyInt lenS = some n →
      (∀ e, receive n.toNat rest = .error e →
        LiveStatus_query none sock = .error (.nagios e)) ∧
      (∀ (data : List Char) (rest2 : List SockEvent),
        receive n.toNat rest = .ok (data, rest2) →
        (code = "200" →
          LiveStatus_query none sock =
            (match json_loads data with
             | .ok rows => .ok rows
             | .error e => .error (.py e))) ∧
        (code ≠ "200" →
          LiveStatus_query none sock = .error (.nagios (.response
            ("Livestatus error: " ++ code ++ ": " ++ pyStrip (String.mk data))))))) := by
  refine ⟨fun e sock => rfl, fun n sock e h => receive_error_response sock n e h,
    ?_, ?_⟩
  · intro sock e h
    simp [LiveStatus_query, h]
  · intro sock header rest code lenS n h16 hsp hint
    constructor
    · intro e herr
      simp [LiveStatus_query, h16, hsp, hint, herr]
    · intro data rest2 hrecv
      constructor
      · intro hcode
        simp [LiveStatus_query, h16, hsp, hint, hrecv, hcode]
      · intro hcode
        simp [LiveStatus_query, h16, hsp, hint, hrecv, hcode]

/-- Witness for C4: a concrete non-200 exchange produces the response
error carrying code and trimmed payload. -/
theorem query_protocol_spec_witness :
    LiveStatus_query none
      [.chunk "404          13\n".toList, .chunk "error message".toList] =
      .error (.nagios (.response "Livestatus error: 404: error message")) := by
  have h := ((query_protocol_spec.2.2.2
    [.chunk "404          13\n".toList, .chunk "error message".toList]
    "404          13\n".toList [.chunk "error message".toList]
    "404" "13" 13 (by decide) (by decide) (by decide)).2
    "error message".toList [] (by decide)).2 (by decide)
  exact h.trans (by decide)

/-- Claim C1: the metrics entry point always returns a well-formed,
newline-terminated body.  On success the body is the accumulated lines
followed by the `nagios_exporter_success 1` sentinel; when collection
raised a protocol-family error (`NagiosConnectError` / `NagiosQueryError`
/ `NagiosResponseError`) the error is caught, all lines accumulated before
the error are kept in order, and the `nagios_exporter_success 0` sentinel
is appended; every returned body ends with one of the two sentinel
lines. -/
theorem metrics_sentinel_spec (args : Args) (sys : Sys) :
    ((collect_metrics args sys).2 = none →
      metrics args sys =
        .ok (joinLines ((collect_metrics args sys).1 ++ ["nagios_exporter_success 1"]))) ∧
    (∀ e : NagiosErr, (collect_metrics args sys).2 = some (.nagios e) →
      metrics args sys =
        .ok (joinLines ((collect_metrics args sys).1 ++ ["nagios_exporter_success 0"]))) ∧
    (∀ body : String, metrics args sys = .ok body →
      (∃ p, body = p ++ "nagios_exporter_success 1\n") ∨
      (∃ p, body = p ++ "nagios_exporter_success 0\n")) := by
  refine ⟨?_, ?_, ?_⟩
  · intro h
    simp only [metrics]
    cases hc : collect_metrics args sys with
    | mk lines err =>
      rw [hc] at h
      simp only at h
      subst h
      rfl
  · intro e h
    simp only [metrics]
    cases hc : collect_metrics args sys with
    | mk lines err =>
      rw [hc] at h
      simp only at h
      subst h
      rfl
  · intro body h
    simp only [metrics] at h
    cases hc : collect_metrics args sys with
    | mk lines err =>
      rw [hc] at h
      match err with
      | none =>
        left
        obtain ⟨p, hp⟩ := joinLines_last lines "nagios_exporter_success 1"
        have hb : body = joinLines (lines ++ ["nagios_exporter_success 1"]) :=
          (Except.ok.inj h).symm
        exact ⟨p, by rw [hb, hp]; rfl⟩
      | some (.nagios e) =>
        right
        obtain ⟨p, hp⟩ := joinLines_last lines "nagios_exporter_success 0"
        have hb : body = joinLines (lines ++ ["nagios_exporter_success 0"]) :=
          (Except.ok.inj h).symm
        exact ⟨p, by rw [hb, hp]; rfl⟩
      | some (.py e) => exact Except.noConfusion h

/-- Witness for C1: a concrete collection whose connect step raised. -/
theorem metrics_sentinel_spec_witness :
    metrics
      { path := "/sock", whitelist := [], all_metrics := false,
        dump_metrics := false, use_perf_data := false, data_names := [] }
      { path_exists := true, connect1 := some "connection refused",
        status_rows := .ok [], connect2 := none, service_rows := .ok [] } =
      .ok "nagios_livestatus_available 1\nnagios_exporter_success 0\n" := by
  have h := (metrics_sentinel_spec
    { path := "/sock", whitelist := [], all_metrics := false,
      dump_metrics := false, use_perf_data := false, data_names := [] }
    { path_exists := true, connect1 := some "connection refused",
      status_rows := .ok [], connect2 := none, service_rows := .ok [] }).2.1
    (.connect "connection refused") (by decide)
  exact h.trans (by decide)

/-- Counterexample to claim C5 as stated: with whitelist patterns `alpha`
and `beta` and a single service whose lines contain both, the matching
state line is kept twice (once per matching pattern), not once; and with
only `dump_metrics` configured (no whitelist, no all-metrics flag),
service-derived lines do appear in the output. -/
theorem collect_metrics_whitelist_counterexample :
    ((collect_metrics
        { path := "/sock", whitelist := ["alpha", "beta"], all_metrics := false,
          dump_metrics := false, use_perf_data := false, data_names := [] }
        { path_exists := true, connect1 := none, status_rows := .ok [[], []],
          connect2 := none,
          service_rows := .ok
            [["alpha", "beta", "0", "0", "", "1", "c", "0", "0", "0"]] }).1.count
      "nagios_c_state\x7bhostname=\"alpha\", service=\"beta\"\x7d 0" = 2) ∧
    ((collect_metrics
        { path := "/sock", whitelist := [], all_metrics := false,
          dump_metrics := true, use_perf_data := false, data_names := [] }
        { path_exists := true, connect1 := none, status_rows := .ok [[], []],
          connect2 := none,
          service_rows := .ok
            [["alpha", "beta", "0", "0", "", "1", "c", "0", "0", "0"]] }).1.contains
      "nagios_c_state\x7bhostname=\"alpha\", service=\"beta\"\x7d 0" = true) := by
  constructor <;> decide

/-- Claim C5, amended: on a successful collection, with a whitelist the
kept service-derived lines are, for each configured pattern in order, the
service lines containing that pattern (so a line matching several patterns
is kept once per matching pattern); status and sentinel lines are not
filtered; with no whitelist, service lines appear exactly when the
all-metrics or the dump-metrics flag is set, and are omitted entirely when
none of the three is configured. -/
theorem collect_metrics_selection_policy (args : Args) (sys : Sys)
    (rows rows2 : List (List String)) (status_lines services : List String)
    (hp : sys.path_exists = true) (hc1 : sys.connect1 = none)
    (hsr : sys.status_rows = .ok rows) (hst : get_status rows = .ok status_lines)
    (hc2 : sys.connect2 = none) (hvr : sys.service_rows = .ok rows2)
    (hsv : get_services args.use_perf_data args.data_names rows2 = .ok services) :
    (args.whitelist ≠ [] →
      collect_metrics args sys =
        ("nagios_livestatus_available 1" :: status_lines ++
          args.whitelist.flatMap (fun w => services.filter (fun x => pyContains w x)),
         none)) ∧
    (args.whitelist = [] → args.all_metrics = false → args.dump_metrics = false →
      collect_metrics args sys =
        ("nagios_livestatus_available 1" :: status_lines, none)) ∧
    (args.whitelist = [] → (args.all_metrics = true ∨ args.dump_metrics = true) →
      collect_metrics args sys =
        ("nagios_livestatus_available 1" :: status_lines ++ services, none)) := by
  refine ⟨?_, ?_, ?_⟩
  · intro hw
    simp [collect_metrics, hp, hc1, hsr, hst, hc2, hvr, hsv, hw]
  · intro hw ha hd
    simp [collect_metrics, hp, hc1, hsr, hst, hc2, hvr, hsv, hw, ha, hd]
  · intro hw h
    rcases h with h | h <;>
      simp [collect_metrics, hp, hc1, hsr, hst, hc2, hvr, hsv, hw, h]

/-- Witness for the amended C5 at a concrete environment. -/
theorem collect_metrics_selection_policy_witness :
    collect_metrics
      { path := "/sock", whitelist := [], all_metrics := false,
        dump_metrics := false, use_perf_data := false, data_names := [] }
      { path_exists := true, connect1 := none, status_rows := .ok [[], []],
        connect2 := none, service_rows := .ok [] } =
      (["nagios_livestatus_available 1"], none) := by
  have h := (collect_metrics_selection_policy
    { path := "/sock", whitelist := [], all_metrics := false,
      dump_metrics := false, use_perf_data := false, data_names := [] }
    { path_exists := true, connect1 := none, status_rows := .ok [[], []],
      connect2 := none, service_rows := .ok [] }
    [[], []] [] [] [] rfl rfl rfl (by decide) rfl rfl (by decide)).2.1 rfl rfl rfl
  exact h.trans (by decide)

/-- Counterexample to claim C6 as stated: a service row whose check command
is the bare remote-check wrapper with no `!`-argument makes `get_services`
raise `IndexError` instead of emitting five metric lines. -/
theorem get_services_nrpe_counterexample :
    get_services false []
      [["h", "s", "0", "0", "", "1", "check_nrpe2", "0", "0", "0"]] =
      .error "IndexError: list index out of range" := by
  decide

/-- Claim C6, amended: for every service row whose command canonicalizes
(the first `!`-token, or the second when the first is the `check_nrpe2`
wrapper — which must then exist), `get_services` emits the five
always-present lines `exec_time`/`latency`/`state`/`flapping`/
`acknowledged` under the canonical prefix with hostname and service
labels, as a prefix of its output; the concrete `check_load` row renders
to exactly the five expected lines. -/
theorem get_services_five_lines :
    (∀ (row : List String) (s : Service) (cmd : String) (upd : Bool)
        (names : List String),
      service_of_row row = .ok s →
      canonical_command s.check_command = .ok cmd →
      get_services false names [row] = .ok (fiveServiceLines cmd s) ∧
      (∀ ls, get_services upd names [row] = .ok ls →
        ∃ rest, ls = fiveServiceLines cmd s ++ rest)) ∧
    canonical_command "check_load!5.0!4.0!3.0!10.0!6.0!4.0" = .ok "check_load" ∧
    canonical_command "check_nrpe2!check_node" = .ok "check_node" ∧
    get_services false []
      [["localhost", "Current Load", "0", "0.078", "load1=0.560;5.000;10.000;0;",
        "1", "check_load!5.0!4.0!3.0!10.0!6.0!4.0", "0", "0.011084", "0"]] =
      .ok ["nagios_check_load_exec_time\x7bhostname=\"localhost\", service=\"Current Load\"\x7d 0.011084",
           "nagios_check_load_latency\x7bhostname=\"localhost\", service=\"Current Load\"\x7d 0.078",
           "nagios_check_load_state\x7bhostname=\"localhost\", service=\"Current Load\"\x7d 0",
           "nagios_check_load_flapping\x7bhostname=\"localhost\", service=\"Current Load\"\x7d 0",
           "nagios_check_load_acknowledged\x7bhostname=\"localhost\", service=\"Current Load\"\x7d 0"] := by
  refine ⟨?_, by decide, by decide, by decide⟩
  intro row s cmd upd names hrow hcmd
  constructor
  · simp [get_services, rowsToServices, hrow, servicesLines, hcmd, servicePerfLines]
  · intro ls hls
    simp only [get_services, rowsToServices, hrow, servicesLines, hcmd] at hls
    cases hperf : servicePerfLines upd names cmd
        [("hostname", s.host_name), ("service", s.service_description)] s with
    | error e => rw [hperf] at hls; exact Except.noConfusion hls
    | ok perf =>
      rw [hperf] at hls
      have := Except.ok.inj hls
      exact ⟨perf ++ [], by rw [← this, List.append_assoc]⟩

/-- Witness for the amended C6 at the concrete `check_load` row. -/
theorem get_services_five_lines_witness :
    get_services false []
      [["localhost", "Current Load", "0", "0.078", "load1=0.560;5.000;10.000;0;",
        "1", "check_load!5.0!4.0!3.0!10.0!6.0!4.0", "0", "0.011084", "0"]] =
      .ok (fiveServiceLines "check_load"
        ⟨"localhost", "Current Load", "0", "0.078", "load1=0.560;5.000;10.000;0;",
         "1", "check_load!5.0!4.0!3.0!10.0!6.0!4.0", "0", "0.011084", "0"⟩) :=
  (get_services_five_lines.1
    ["localhost", "Current Load", "0", "0.078", "load1=0.560;5.000;10.000;0;",
     "1", "check_load!5.0!4.0!3.0!10.0!6.0!4.0", "0", "0.011084", "0"]
    ⟨"localhost", "Current Load", "0", "0.078", "load1=0.560;5.000;10.000;0;",
     "1", "check_load!5.0!4.0!3.0!10.0!6.0!4.0", "0", "0.011084", "0"⟩
    "check_load" false [] rfl rfl).1

/-- Counterexample to claim C8 as stated: a performance-data token without
`=` raises `ValueError`, and a field-name hint naming more positions than
the token carries values raises `IndexError`. -/
theorem get_perf_data_raises_counterexample :
    get_perf_data "c" [] ["noequals"] [] =
      .error "ValueError: unpacking of raw_value.split requires exactly two values" ∧
    get_perf_data "c" [] ["k=1"] ["c=a;b"] =
      .error "IndexError: list index out of range" := by
  constructor <;> decide

lemma perfFields_ok (cmd : String) (labels : Labels) (vals : List String)
    (unit : String) :
    ∀ (fns : List String) (i : Nat),
      (∀ j fn, fns[j]? = some fn → fn ≠ "" → (vals[i + j]?).isSome = true) →
      ∃ ms, perfFields cmd labels vals unit i fns = .ok ms := by
  intro fns
  induction fns with
  | nil => intro i h; exact ⟨[], rfl⟩
  | cons fn rest ih =>
    intro i h
    have hshift : ∀ j fn', rest[j]? = some fn' → fn' ≠ "" →
        (vals[i + 1 + j]?).isSome = true := by
      intro j fn' hg hne
      have heq : i + 1 + j = i + (j + 1) := by omega
      rw [heq]
      exact h (j + 1) fn' (by simpa using hg) hne
    by_cases hfn : fn = ""
    · obtain ⟨ms, hms⟩ := ih (i + 1) hshift
      exact ⟨ms, by simp [perfFields, hfn, hms]⟩
    · have h0 := h 0 fn (by simp) hfn
      rw [Nat.add_zero] at h0
      cases hv : vals[i]? with
      | none => rw [hv] at h0; simp at h0
      | some raw =>
        obtain ⟨ms, hms⟩ := ih (i + 1) hshift
        exact ⟨(cmd ++ "_perf_data" ++ "_" ++ fn, labels,
            convert_value_to_base_unit (parse_value_and_unit raw).1 unit) :: ms,
          by simp [perfFields, hfn, hv, hms]⟩

lemma perfKeys_ok (cmd : String) (base : Labels) (nm : Dict (List String)) :
    ∀ vm : Dict (List String),
      (∀ p ∈ vm, ((p.2)[(0 : Nat)]?).isSome = true ∧
        ∀ (j : Nat) (fn : String),
          (((dictGet? nm cmd).getD ["value"])[j]?) = some fn → fn ≠ "" →
          ((p.2)[j]?).isSome = true) →
      ∃ ms, perfKeys cmd base nm vm = .ok ms := by
  intro vm
  induction vm with
  | nil => intro h; exact ⟨[], rfl⟩
  | cons p rest ih =>
    obtain ⟨key, vals⟩ := p
    intro h
    obtain ⟨h0, hidx⟩ := h (key, vals) (List.mem_cons_self _ _)
    cases hv : vals[0]? with
    | none => rw [hv] at h0; simp at h0
    | some first =>
      obtain ⟨ms, hms⟩ := perfFields_ok cmd (dictUpdate [("key", key)] base) vals
        ((parse_value_and_unit first).2) ((dictGet? nm cmd).getD ["value"]) 0
        (fun j fn hg hne => by simpa using hidx j fn hg hne)
      obtain ⟨more, hmore⟩ := ih (fun q hq => h q (List.mem_cons_of_mem _ hq))
      exact ⟨ms ++ more, by simp [perfKeys, hv, hms, hmore]⟩

/-- Claim C8, amended: the performance-data pipeline raises no error
provided every token splits on `=` into exactly a name and a value list,
and — for the hint list selected for the command (defaulting to the single
name `value`) — every position carrying a non-empty field name lies
within the corresponding value list (the first position always does, the
value lists being non-empty splits).  Tokens without exactly one `=` raise
`ValueError` and out-of-range named positions raise `IndexError`;
`parse_value_and_unit` and `convert_value_to_base_unit` are total. -/
theorem get_perf_data_no_raise (cmd : String) (labels : Labels)
    (raw_values raw_names : List String) (vm nm : Dict (List String))
    (hv : parse_perf_data_fields raw_values = .ok vm)
    (hn : parse_perf_data_fields raw_names = .ok nm)
    (hidx : ∀ p ∈ vm, ((p.2)[(0 : Nat)]?).isSome = true ∧
      ∀ (j : Nat) (fn : String),
        (((dictGet? nm cmd).getD ["value"])[j]?) = some fn → fn ≠ "" →
        ((p.2)[j]?).isSome = true) :
    ∃ ms, get_perf_data cmd labels raw_values raw_names = .ok ms := by
  obtain ⟨ms, hms⟩ := perfKeys_ok cmd labels nm vm hidx
  exact ⟨ms, by simp [get_perf_data, hv, hn, hms]⟩

/-- Witness for the amended C8 at the `check_disk` inputs. -/
theorem get_perf_data_no_raise_witness :
    ∃ ms, get_perf_data "check_disk" [] ["/=2400MB;48356;54400;0;60445"]
      ["check_disk=used;free;;;total"] = .ok ms := by
  apply get_perf_data_no_raise "check_disk" [] ["/=2400MB;48356;54400;0;60445"]
    ["check_disk=used;free;;;total"]
    [("/", ["2400MB", "48356", "54400", "0", "60445"])]
    [("check_disk", ["used", "free", "", "", "total"])] (by decide) (by decide)
  intro p hp
  have hpe : p = ("/", ["2400MB", "48356", "54400", "0", "60445"]) := by
    simpa using hp
  subst hpe
  refine ⟨rfl, ?_⟩
  intro j fn hg hne
  rcases j with _ | _ | _ | _ | _ | j
  · rfl
  · rfl
  · exact absurd (Option.some.inj hg).symm hne
  · exact absurd (Option.some.inj hg).symm hne
  · rfl
  · exact Option.noConfusion hg

end NagiosExporter
